import Mathlib

/-!
Shallow embedding of `src/caffe/util/gpu_memory.cpp` (class `GPUMemory::Manager`).

The manager is a process-wide state machine: a mode switch (`CUDA_MALLOC`,
the direct/pass-through backend, vs `CUB_ALLOCATOR`, the caching pool), a
debug flag, and a per-device info table (`dev_info_`, a `std::vector` of
`{free_, total_, flush_count_}` entries).  The ambient CUDA "current
device" (read by `cudaGetDevice`, written by `cudaSetDevice`) and the
existence of the global `cub_allocator` pointer are part of the global
state and are carried in the same record.

All driver / hardware / pool observations (`cudaMemGetInfo`,
`cudaGetDeviceProperties(...).totalGlobalMem`,
`cub_allocator->cached_bytes[d].live`, `cudaGetLastError`, allocation
statuses, the `DEBUG_GPU_MEM` environment variable) are supplied by an
environment oracle `Env`.  `size_t` values are modelled as `Nat`, with an
explicit `% 2^64` where the C++ computation can wrap (the addition in
`update_dev_info` and the subtraction in `GetInfo`).
-/

namespace GPUMemory

/-- Width of `size_t`: arithmetic on it is modulo `2 ^ 64`. -/
def w64 : Nat := 2 ^ 64

/-- `cudaError_t` is modelled as a `Nat`; `cudaSuccess` is `0`. -/
def cudaSuccess : Nat := 0

/-- `size_t` subtraction, wrapping modulo `2 ^ 64` as unsigned C++
subtraction does (for `a < 2 ^ 64` this is `(a - b) mod 2 ^ 64`). -/
def sub64 (a b : Nat) : Nat := (a + (w64 - b % w64)) % w64

/-- One entry of the `dev_info_` table (`GPUMemory::Manager::DevInfo`):
last observed free bytes, last observed total bytes, and the count of
cache-flush events attributed to this device.  A fresh entry (as produced
by `std::vector::resize`) is all zeroes. -/
structure DevInfo where
  free_ : Nat := 0
  total_ : Nat := 0
  flush_count_ : Nat := 0
deriving Repr, DecidableEq

instance : Inhabited DevInfo := ⟨{}⟩

/-- Allocator mode (`GPUMemory::Mode`): the spec calls `CUDA_MALLOC`
"DIRECT" and `CUB_ALLOCATOR` "CACHING_POOL". -/
inductive Mode where
  | CUDA_MALLOC
  | CUB_ALLOCATOR
deriving Repr, DecidableEq

/-- Environment oracle: everything the code observes from the CUDA driver,
the hardware property query, the CUB pool, and the process environment
during one call.  Per-device quantities are functions of the device id. -/
structure Env where
  /-- `cudaGetDeviceProperties(&props, d)`: `props.totalGlobalMem`. -/
  totalGlobalMem : Nat → Nat
  /-- `cudaMemGetInfo` free bytes, when device `d` is the active device. -/
  memFree : Nat → Nat
  /-- `cudaMemGetInfo` total bytes, when device `d` is the active device. -/
  memTotal : Nat → Nat
  /-- `cub_allocator->cached_bytes[d].live`: the pool's live cached bytes. -/
  live : Nat → Nat
  /-- Whether `getenv("DEBUG_GPU_MEM")` is non-null. -/
  debugEnvSet : Bool
  /-- Status returned by `cub_allocator->DeviceAllocate(ptr, size, s)`. -/
  allocStatus : Nat
  /-- Residual status returned by `cudaGetLastError()` just afterwards. -/
  lastErr : Nat
  /-- Status returned by a direct `cudaMalloc(ptr, size)`. -/
  mallocStatus : Nat

/-- The manager's state together with the relevant global state: the
ambient CUDA active device and whether the global `cub_allocator`
pointer is non-null. -/
structure MgrState where
  mode_ : Mode := .CUDA_MALLOC
  debug_ : Bool := false
  dev_info_ : List DevInfo := []
  cur_device : Nat := 0
  pool_exists : Bool := false
deriving Repr, DecidableEq

/-- `GPUMemory::Manager::Manager()`: mode `CUDA_MALLOC`, debug off, empty
table.  The ambient active device `cur` is whatever the process has. -/
def managerCtor (cur : Nat) : MgrState :=
  { cur_device := cur }

/-- `std::vector::resize(n)` when it can only grow (the code guards with
`device + 1 > dev_info_.size()`): pads with default-constructed entries. -/
def grow (l : List DevInfo) (n : Nat) : List DevInfo :=
  if n > l.length then l ++ List.replicate (n - l.length) default else l

/-- `GPUMemory::Manager::update_dev_info(device)`:
saves the ambient active device, grows the table to cover `device`,
switches to `device`, reads `cudaMemGetInfo` and the hardware total,
clamps `total_ := min(props.totalGlobalMem, total)` and then
`free_ := min(total_, free + cached_bytes[device].live)` (a `size_t`
addition, hence `% 2 ^ 64`), and finally restores the saved device. -/
def update_dev_info (env : Env) (device : Nat) (st : MgrState) : MgrState :=
  let initial_device := st.cur_device
  let info0 := grow st.dev_info_ (device + 1)
  let st1 : MgrState := { st with dev_info_ := info0, cur_device := device }
  let freeRaw := env.memFree device
  let totalRaw := env.memTotal device
  let total1 := min (env.totalGlobalMem device) totalRaw
  let free1 := min total1 ((freeRaw + env.live device) % w64)
  let old := info0.getD device default
  let st2 : MgrState :=
    { st1 with dev_info_ := info0.set device { old with free_ := free1, total_ := total1 } }
  { st2 with cur_device := initial_device }

/-- `GPUMemory::Manager::init(gpus, m, debug)`.  Returns the new state and
whether the "initialized with pool name" diagnostic line was emitted.
Note the source guards that line with `VLOG_IF(1, debug)` — the raw
`debug` argument — while the stored flag is `debug_ = debug || debug_env`. -/
def init (env : Env) (gpus : List Nat) (m : Mode) (debug : Bool) (st : MgrState) :
    MgrState × Bool :=
  let debug_env := env.debugEnvSet
  let st0 : MgrState := { st with debug_ := debug || debug_env }
  let m1 := if gpus.length = 0 then Mode.CUDA_MALLOC else m
  let st1 :=
    match m1 with
    | .CUB_ALLOCATOR =>
      let stPool : MgrState := { st0 with pool_exists := true }
      gpus.foldl (fun s g => update_dev_info env g s) stPool
    | .CUDA_MALLOC => st0
  ({ st1 with mode_ := m1 }, debug)

/-- `GPUMemory::Manager::destroy()`: deletes the pool only in
`CUB_ALLOCATOR` mode, and always resets the mode to `CUDA_MALLOC`. -/
def destroy (st : MgrState) : MgrState :=
  match st.mode_ with
  | .CUB_ALLOCATOR => { st with pool_exists := false, mode_ := .CUDA_MALLOC }
  | .CUDA_MALLOC => { st with mode_ := .CUDA_MALLOC }

/-- `dev_info_[i].flush_count_++`. -/
def flushSucc (d : DevInfo) : DevInfo :=
  { d with flush_count_ := d.flush_count_ + 1 }

/-- Increment the flush counter of entry `i` in the table. -/
def bumpFlush (i : Nat) (st : MgrState) : MgrState :=
  { st with dev_info_ := st.dev_info_.set i (flushSucc (st.dev_info_.getD i default)) }

/-- Body of the refresh loop in `try_allocate`: for index `i`, if
`dev_info_[i].total_` is non-zero, refresh the entry via
`update_dev_info(i)` and then, when `i` is the current device, increment
its `flush_count_`. -/
def refreshStep (env : Env) (cur : Nat) (st : MgrState) (i : Nat) : MgrState :=
  if (st.dev_info_.getD i default).total_ ≠ 0 then
    if i = cur then bumpFlush i (update_dev_info env i st)
    else update_dev_info env i st
  else st

/-- The full refresh loop `for (i = 0; i < dev_info_.size(); ++i)`.
`update_dev_info i` with `i < dev_info_.size()` never resizes the table,
so the loop bound is the initial length throughout. -/
def refreshAll (env : Env) (cur : Nat) (st : MgrState) : MgrState :=
  (List.range st.dev_info_.length).foldl (refreshStep env cur) st

/-- `GPUMemory::Manager::try_allocate(ptr, size, stream)`: returns the
success boolean and the new state.  In `CUB_ALLOCATOR` mode the pool
allocation status and the residual `cudaGetLastError` are observed; if
either is non-success, every initialized device entry is refreshed and
the current device's `flush_count_` is bumped.  The returned boolean is
`status == cudaSuccess` in every case. -/
def try_allocate (env : Env) (st : MgrState) : Bool × MgrState :=
  match st.mode_ with
  | .CUB_ALLOCATOR =>
    let status := env.allocStatus
    let last_err := env.lastErr
    if status ≠ cudaSuccess ∨ last_err ≠ cudaSuccess then
      (status == cudaSuccess, refreshAll env st.cur_device st)
    else
      (status == cudaSuccess, st)
  | .CUDA_MALLOC => (env.mallocStatus == cudaSuccess, st)

/-- `GPUMemory::Manager::pool_name()`. -/
def pool_name (st : MgrState) : String :=
  match st.mode_ with
  | .CUB_ALLOCATOR => "Caching (CUB) GPU Allocator"
  | .CUDA_MALLOC => "Plain CUDA GPU Allocator"

/-- `GPUMemory::Manager::GetInfo(&free_mem, &total_mem)`, returning
`(free_mem, total_mem)`.  In `CUB_ALLOCATOR` mode the code indexes
`dev_info_[cur_device]` with no bounds check; an out-of-range access is
undefined behaviour and is modelled as `none`.  The subtraction
`dev_info_[cur].free_ - cached_bytes[cur].live` is unsigned `size_t`
subtraction, modelled by `sub64`. -/
def GetInfo (env : Env) (st : MgrState) : Option (Nat × Nat) :=
  match st.mode_ with
  | .CUB_ALLOCATOR =>
    (st.dev_info_[st.cur_device]?).map
      (fun d => (sub64 d.free_ (env.live st.cur_device), d.total_))
  | .CUDA_MALLOC => some (env.memFree st.cur_device, env.memTotal st.cur_device)

/-- The value `update_dev_info` stores as `total_` for device `d`. -/
def storedTotal (env : Env) (d : Nat) : Nat :=
  min (env.totalGlobalMem d) (env.memTotal d)

/-- The value `update_dev_info` stores as `free_` for device `d`. -/
def storedFree (env : Env) (d : Nat) : Nat :=
  min (storedTotal env d) ((env.memFree d + env.live d) % w64)

/-- The entry the `try_allocate` refresh loop leaves at index `i` when the
current device is `cur`, as a function of the entry before the loop. -/
def refreshedEntry (env : Env) (cur i : Nat) (old : DevInfo) : DevInfo :=
  if old.total_ ≠ 0 then
    { free_ := storedFree env i, total_ := storedTotal env i,
      flush_count_ := old.flush_count_ + (if i = cur then 1 else 0) }
  else old

/-! ### Helper lemmas about the table operations -/

theorem length_grow (l : List DevInfo) (n : Nat) :
    (grow l n).length = max l.length n := by
  unfold grow
  split
  · simp only [List.length_append, List.length_replicate]
    omega
  · omega

theorem getD_grow (l : List DevInfo) (n i : Nat) :
    (grow l n).getD i default = l.getD i default := by
  unfold grow
  split
  · rcases Nat.lt_or_ge i l.length with h | h
    · simp [List.getD_eq_getElem?_getD, List.getElem?_append_left h]
    · simp [List.getD_eq_getElem?_getD, List.getElem?_append_right h,
        List.getElem?_eq_none h, List.getElem?_replicate]
      split <;> rfl
  · rfl

theorem mem_grow {l : List DevInfo} {n : Nat} {e : DevInfo}
    (h : e ∈ grow l n) : e ∈ l ∨ e = default := by
  unfold grow at h
  split at h
  · rcases List.mem_append.mp h with h1 | h1
    · exact Or.inl h1
    · exact Or.inr (List.eq_of_mem_replicate h1)
  · exact Or.inl h

theorem getD_set_self {l : List DevInfo} {i : Nat} (v : DevInfo)
    (h : i < l.length) : (l.set i v).getD i default = v := by
  simp [List.getD_eq_getElem?_getD, List.getElem?_set_self h]

theorem getD_set_ne {l : List DevInfo} {i j : Nat} (v : DevInfo)
    (h : i ≠ j) : (l.set i v).getD j default = l.getD j default := by
  simp [List.getD_eq_getElem?_getD, List.getElem?_set_ne h]

/-- The entry `update_dev_info` writes at index `d`: the previous entry
with `free_` and `total_` replaced by the clamped values. -/
def updatedEntry (env : Env) (d : Nat) (old : DevInfo) : DevInfo :=
  { old with free_ := storedFree env d, total_ := storedTotal env d }

/-- Unfolding of the table produced by `update_dev_info`. -/
theorem update_dev_info_dev_info (env : Env) (d : Nat) (st : MgrState) :
    (update_dev_info env d st).dev_info_ =
      (grow st.dev_info_ (d + 1)).set d
        (updatedEntry env d ((grow st.dev_info_ (d + 1)).getD d default)) := rfl

theorem update_dev_info_length (env : Env) (d : Nat) (st : MgrState)
    (h : d < st.dev_info_.length) :
    (update_dev_info env d st).dev_info_.length = st.dev_info_.length := by
  rw [update_dev_info_dev_info]
  simp [length_grow]
  omega

theorem update_dev_info_getD_self (env : Env) (d : Nat) (st : MgrState) :
    (update_dev_info env d st).dev_info_.getD d default =
      { free_ := storedFree env d, total_ := storedTotal env d,
        flush_count_ := (st.dev_info_.getD d default).flush_count_ } := by
  rw [update_dev_info_dev_info]
  have hd : d < (grow st.dev_info_ (d + 1)).length := by
    rw [length_grow]; omega
  rw [getD_set_self _ hd, getD_grow]
  rfl

theorem update_dev_info_getD_ne (env : Env) (d : Nat) (st : MgrState)
    {j : Nat} (hj : d ≠ j) :
    (update_dev_info env d st).dev_info_.getD j default =
      st.dev_info_.getD j default := by
  rw [update_dev_info_dev_info]
  rw [getD_set_ne _ hj, getD_grow]

theorem update_dev_info_debug (env : Env) (d : Nat) (st : MgrState) :
    (update_dev_info env d st).debug_ = st.debug_ := rfl

/-! ### Lemmas about the refresh loop of `try_allocate` -/

theorem bumpFlush_length (i : Nat) (st : MgrState) :
    (bumpFlush i st).dev_info_.length = st.dev_info_.length := by
  simp [bumpFlush]

theorem bumpFlush_getD_self (i : Nat) (st : MgrState)
    (h : i < st.dev_info_.length) :
    (bumpFlush i st).dev_info_.getD i default =
      flushSucc (st.dev_info_.getD i default) := by
  unfold bumpFlush
  exact getD_set_self _ h

theorem bumpFlush_getD_ne (i : Nat) (st : MgrState) {j : Nat} (hj : i ≠ j) :
    (bumpFlush i st).dev_info_.getD j default = st.dev_info_.getD j default := by
  unfold bumpFlush
  exact getD_set_ne _ hj

theorem refreshStep_length (env : Env) (cur : Nat) (st : MgrState) (i : Nat)
    (h : i < st.dev_info_.length) :
    (refreshStep env cur st i).dev_info_.length = st.dev_info_.length := by
  unfold refreshStep
  split
  · split
    · rw [bumpFlush_length, update_dev_info_length env i st h]
    · exact update_dev_info_length env i st h
  · rfl

theorem refreshStep_getD_self (env : Env) (cur : Nat) (st : MgrState) (i : Nat)
    (h : i < st.dev_info_.length) :
    (refreshStep env cur st i).dev_info_.getD i default =
      refreshedEntry env cur i (st.dev_info_.getD i default) := by
  unfold refreshStep refreshedEntry
  split
  · split
    · have h1 : i < (update_dev_info env i st).dev_info_.length := by
        rw [update_dev_info_length env i st h]; exact h
      rw [bumpFlush_getD_self i _ h1, update_dev_info_getD_self]
      simp_all [flushSucc]
    · rw [update_dev_info_getD_self]
      simp_all
  · rfl

theorem refreshStep_getD_ne (env : Env) (cur : Nat) (st : MgrState) (i : Nat)
    {j : Nat} (hj : i ≠ j) :
    (refreshStep env cur st i).dev_info_.getD j default =
      st.dev_info_.getD j default := by
  unfold refreshStep
  split
  · split
    · rw [bumpFlush_getD_ne i _ hj, update_dev_info_getD_ne env i st hj]
    · exact update_dev_info_getD_ne env i st hj
  · rfl

/-- Invariant of the refresh loop: folding `refreshStep` over indices
`0, ..., n-1` (with `n` within the table) keeps the length, maps every
entry below `n` through `refreshedEntry`, and leaves entries at and above
`n` untouched. -/
theorem loopN_spec (env : Env) (cur : Nat) :
    ∀ (n : Nat) (st : MgrState), n ≤ st.dev_info_.length →
      ((List.range n).foldl (refreshStep env cur) st).dev_info_.length =
          st.dev_info_.length ∧
      (∀ j, j < n →
        ((List.range n).foldl (refreshStep env cur) st).dev_info_.getD j default =
          refreshedEntry env cur j (st.dev_info_.getD j default)) ∧
      (∀ j, n ≤ j →
        ((List.range n).foldl (refreshStep env cur) st).dev_info_.getD j default =
          st.dev_info_.getD j default) := by
  intro n
  induction n with
  | zero => intro st _; exact ⟨rfl, fun j hj => absurd hj (Nat.not_lt_zero j), fun j _ => rfl⟩
  | succ n ih =>
    intro st h
    obtain ⟨h1, h2, h3⟩ := ih st (Nat.le_of_succ_le h)
    rw [List.range_succ, List.foldl_append, List.foldl_cons, List.foldl_nil]
    have hn : n < ((List.range n).foldl (refreshStep env cur) st).dev_info_.length := by
      rw [h1]; omega
    refine ⟨?_, ?_, ?_⟩
    · rw [refreshStep_length env cur _ n hn, h1]
    · intro j hj
      rcases Nat.lt_or_ge j n with hlt | hge
      · rw [refreshStep_getD_ne env cur _ n (by omega), h2 j hlt]
      · have hjn : j = n := by omega
        subst hjn
        rw [refreshStep_getD_self env cur _ j hn, h3 j (Nat.le_refl j)]
    · intro j hj
      rw [refreshStep_getD_ne env cur _ n (by omega), h3 j (by omega)]

/-- The debug flag is untouched by the priming loop of `init`. -/
theorem foldl_update_debug (env : Env) (gs : List Nat) (s : MgrState) :
    (gs.foldl (fun a g => update_dev_info env g a) s).debug_ = s.debug_ := by
  induction gs generalizing s with
  | nil => rfl
  | cons g gs ih => rw [List.foldl_cons, ih (update_dev_info env g s), update_dev_info_debug]

/-! ### Concrete fixtures used by witnesses and counterexamples -/

/-- A concrete environment with a successful allocation. -/
def envA : Env :=
  { totalGlobalMem := fun _ => 8, memFree := fun _ => 4, memTotal := fun _ => 8,
    live := fun _ => 2, debugEnvSet := false, allocStatus := 0, lastErr := 0,
    mallocStatus := 0 }

/-- Environment where the pool's live cached bytes for device 0 exceed the
stored free bytes of the state `st9` below. -/
def env9 : Env :=
  { totalGlobalMem := fun _ => 10, memFree := fun _ => 0, memTotal := fun _ => 10,
    live := fun _ => 1, debugEnvSet := false, allocStatus := 0, lastErr := 0,
    mallocStatus := 0 }

/-- Caching-pool state with one device entry whose stored free bytes are 0. -/
def st9 : MgrState :=
  { mode_ := .CUB_ALLOCATOR, debug_ := false,
    dev_info_ := [{ free_ := 0, total_ := 10, flush_count_ := 0 }],
    cur_device := 0, pool_exists := true }

/-- Caching-pool state whose table has no entry for the active device. -/
def stOOB : MgrState :=
  { mode_ := .CUB_ALLOCATOR, debug_ := false, dev_info_ := [],
    cur_device := 0, pool_exists := true }

/-- Environment with the `DEBUG_GPU_MEM` override present. -/
def envDbg : Env :=
  { totalGlobalMem := fun _ => 8, memFree := fun _ => 4, memTotal := fun _ => 8,
    live := fun _ => 0, debugEnvSet := true, allocStatus := 0, lastErr := 0,
    mallocStatus := 0 }

/-- Environment in which the pool allocation fails (`DeviceAllocate`
returns a non-success status). -/
def envFail : Env :=
  { totalGlobalMem := fun _ => 8, memFree := fun _ => 4, memTotal := fun _ => 8,
    live := fun _ => 2, debugEnvSet := false, allocStatus := 1, lastErr := 0,
    mallocStatus := 0 }

/-- Caching-pool state whose active device 0 has an uninitialized entry
(`total_ = 0`). -/
def stUninit : MgrState :=
  { mode_ := .CUB_ALLOCATOR, debug_ := false,
    dev_info_ := [{ free_ := 0, total_ := 0, flush_count_ := 0 }],
    cur_device := 0, pool_exists := true }

/-- Caching-pool state whose active device 0 has an initialized entry. -/
def stInit2 : MgrState :=
  { mode_ := .CUB_ALLOCATOR, debug_ := false,
    dev_info_ := [{ free_ := 5, total_ := 10, flush_count_ := 0 }],
    cur_device := 0, pool_exists := true }

/-! ### Claims -/

/-- C1: for every device entry in the device-info table, `free_ <= total_`
holds immediately after every call to `update_dev_info`, regardless of the
driver-reported values, the hardware property query, or the pool's
live-cached-bytes counter (the environment `env` is arbitrary).  Entries
not touched by the call keep their values, so the invariant is stated as
preservation; the freshly written entry satisfies it unconditionally
because `free_` is clamped by `min` to `total_`. -/
theorem update_dev_info_preserves_invariant (env : Env) (d : Nat) (st : MgrState)
    (h : ∀ e ∈ st.dev_info_, e.free_ ≤ e.total_) :
    ∀ e ∈ (update_dev_info env d st).dev_info_, e.free_ ≤ e.total_ := by
  rw [update_dev_info_dev_info]
  intro e he
  rcases List.mem_or_eq_of_mem_set he with h1 | rfl
  · rcases mem_grow h1 with h2 | rfl
    · exact h e h2
    · exact Nat.le_refl 0
  · exact Nat.min_le_left _ _

/-- Witness for C1: a concrete empty-table state and environment. -/
theorem update_dev_info_preserves_invariant_witness :
    (∀ e ∈ (managerCtor 0).dev_info_, e.free_ ≤ e.total_) ∧
    (∀ e ∈ (update_dev_info envA 3 (managerCtor 0)).dev_info_, e.free_ ≤ e.total_) :=
  ⟨fun e he => absurd he (List.not_mem_nil e),
   update_dev_info_preserves_invariant envA 3 (managerCtor 0)
     (fun e he => absurd he (List.not_mem_nil e))⟩

/-- C3: `update_dev_info` stores `total_ = min(hardware total, driver
total)` and then `free_ = min(new total_, driver free + live cached bytes)`
(a `size_t` addition, hence modulo `2 ^ 64`), the free clamp using the
freshly clamped total. -/
theorem update_dev_info_formula (env : Env) (d : Nat) (st : MgrState) :
    ((update_dev_info env d st).dev_info_.getD d default).total_ =
        min (env.totalGlobalMem d) (env.memTotal d) ∧
    ((update_dev_info env d st).dev_info_.getD d default).free_ =
        min ((update_dev_info env d st).dev_info_.getD d default).total_
          ((env.memFree d + env.live d) % w64) := by
  rw [update_dev_info_getD_self]
  exact ⟨rfl, rfl⟩

/-- C6: `init` with an empty device list forces `CUDA_MALLOC` (DIRECT)
mode regardless of the requested mode, constructs no pool, and leaves the
device-info table untouched. -/
theorem init_empty_forces_direct (env : Env) (m : Mode) (debug : Bool) (st : MgrState) :
    (init env [] m debug st).1.mode_ = Mode.CUDA_MALLOC ∧
    (init env [] m debug st).1.pool_exists = st.pool_exists ∧
    (init env [] m debug st).1.dev_info_ = st.dev_info_ :=
  ⟨rfl, rfl, rfl⟩

/-- C7: `update_dev_info` saves the ambient active device on entry and
restores it before returning, so the active-device selection is unchanged
on every normal return. -/
theorem update_dev_info_restores_device (env : Env) (d : Nat) (st : MgrState) :
    (update_dev_info env d st).cur_device = st.cur_device := rfl

/-- C9: in caching-pool mode `GetInfo` subtracts the live cached bytes
from the stored `free_` with unguarded unsigned (`size_t`) subtraction:
in the state `st9` the live counter (1) exceeds the stored free bytes (0),
so the reported free memory wraps to `2 ^ 64 - 1` and exceeds the reported
total memory (10). -/
theorem GetInfo_unsigned_wrap :
    (st9.dev_info_.getD 0 default).free_ < env9.live 0 ∧
    GetInfo env9 st9 = some (w64 - 1, 10) ∧
    10 < w64 - 1 := by
  refine ⟨by decide, by decide, by decide⟩

/-- C4: in caching-pool mode, for an active device with a table entry,
`GetInfo` returns `total_mem` equal to the stored `total_` and `free_mem`
equal to the stored `free_` minus (unsigned subtraction) the pool's
current live cached bytes; the result is the same for every driver
environment, i.e. no driver memory query is issued. -/
theorem GetInfo_cub_formula (env : Env) (st : MgrState)
    (hm : st.mode_ = Mode.CUB_ALLOCATOR)
    (hd : st.cur_device < st.dev_info_.length) :
    GetInfo env st =
      some (sub64 (st.dev_info_.getD st.cur_device default).free_
              (env.live st.cur_device),
            (st.dev_info_.getD st.cur_device default).total_) := by
  rcases st with ⟨mo, dbg, info, cur, pe⟩
  simp only at hm hd
  subst hm
  unfold GetInfo
  simp [List.getElem?_eq_getElem hd, List.getD_eq_getElem?_getD]

/-- Witness for C4 at the concrete state `st9`. -/
theorem GetInfo_cub_formula_witness :
    GetInfo env9 st9 =
      some (sub64 (st9.dev_info_.getD st9.cur_device default).free_
              (env9.live st9.cur_device),
            (st9.dev_info_.getD st9.cur_device default).total_) :=
  GetInfo_cub_formula env9 st9 rfl (by decide)

/-- C10: in caching-pool mode `GetInfo` indexes the table by the active
device with no bounds check; an access for an active device with no table
entry is out of bounds (modelled as `none`), so the call has the unstated
precondition `cur_device < dev_info_.length`. -/
theorem GetInfo_cub_oob (env : Env) (st : MgrState)
    (hm : st.mode_ = Mode.CUB_ALLOCATOR) :
    GetInfo env st = none ↔ st.dev_info_.length ≤ st.cur_device := by
  rcases st with ⟨mo, dbg, info, cur, pe⟩
  simp only at hm
  subst hm
  unfold GetInfo
  simp [Option.map_eq_none, List.getElem?_eq_none_iff]

/-- Witness for C10 at the concrete state `stOOB`, whose table is empty. -/
theorem GetInfo_cub_oob_witness :
    GetInfo envA stOOB = none ↔ stOOB.dev_info_.length ≤ stOOB.cur_device :=
  GetInfo_cub_oob envA stOOB rfl

/-- C5: `destroy` resets the mode to `CUDA_MALLOC` (DIRECT) and is
idempotent; any subsequent `GetInfo` or `try_allocate` takes the direct
branch, producing exactly the result a never-pooled manager (the freshly
constructed `managerCtor` on the same ambient device) produces, without
consulting the pool. -/
theorem destroy_direct_equiv (env : Env) (st : MgrState) :
    (destroy st).mode_ = Mode.CUDA_MALLOC ∧
    destroy (destroy st) = destroy st ∧
    GetInfo env (destroy st) = some (env.memFree st.cur_device, env.memTotal st.cur_device) ∧
    GetInfo env (destroy st) = GetInfo env (managerCtor st.cur_device) ∧
    (try_allocate env (destroy st)).1 = (env.mallocStatus == cudaSuccess) ∧
    (try_allocate env (destroy st)).2 = destroy st ∧
    (try_allocate env (destroy st)).1 = (try_allocate env (managerCtor st.cur_device)).1 := by
  rcases st with ⟨mo, dbg, info, cur, pe⟩
  cases mo <;> exact ⟨rfl, rfl, rfl, rfl, rfl, rfl, rfl⟩

/-- C8 counterexample: with the environment override present and the
explicit `debug` argument false, the resolved flag `debug_` is true but
the "initialized with pool name" line is not emitted, because the source
guards it with `VLOG_IF(1, debug)` on the raw argument. -/
theorem init_log_counterexample :
    (init envDbg [] Mode.CUDA_MALLOC false (managerCtor 0)).1.debug_ = true ∧
    (init envDbg [] Mode.CUDA_MALLOC false (managerCtor 0)).2 = false :=
  ⟨rfl, rfl⟩

/-- C8 amended: `init` emits the diagnostic line exactly when the explicit
`debug` argument is set; the environment override only enters the stored
`debug_` flag (`debug OR override`), which later calls consult. -/
theorem init_log_iff_explicit_debug (env : Env) (gpus : List Nat) (m : Mode)
    (debug : Bool) (st : MgrState) :
    (init env gpus m debug st).2 = debug ∧
    (init env gpus m debug st).1.debug_ = (debug || env.debugEnvSet) := by
  refine ⟨rfl, ?_⟩
  unfold init
  by_cases hg : gpus.length = 0
  · simp [hg]
  · cases m with
    | CUDA_MALLOC => simp [hg]
    | CUB_ALLOCATOR => simp [hg, foldl_update_debug]

/-- C2 counterexample: a failing caching-pool allocation in a state whose
active device 0 is present in the table but has an uninitialized entry
(`total_ = 0`): contrary to the claim, `flush_count_` of the active device
is not incremented (the increment sits inside the `total_ != 0` guard). -/
theorem try_allocate_flush_counterexample :
    envFail.allocStatus ≠ cudaSuccess ∧
    stUninit.mode_ = Mode.CUB_ALLOCATOR ∧
    stUninit.cur_device = 0 ∧
    ((try_allocate envFail stUninit).2.dev_info_.getD 0 default).flush_count_ = 0 ∧
    (try_allocate envFail stUninit).1 = false := by
  decide

/-- C2 amended: in caching-pool mode, when the pool status or the residual
device error is non-success, `try_allocate` refreshes every device entry
with `total_ != 0` via the `update_dev_info` computation, increments
`flush_count_` for the active device provided its entry is initialized
(`total_ != 0`), leaves uninitialized entries untouched, and returns
success iff the allocation status was success (a residual error alone is
not surfaced as failure). -/
theorem try_allocate_refresh (env : Env) (st : MgrState)
    (hm : st.mode_ = Mode.CUB_ALLOCATOR)
    (htrig : env.allocStatus ≠ cudaSuccess ∨ env.lastErr ≠ cudaSuccess) :
    (try_allocate env st).1 = (env.allocStatus == cudaSuccess) ∧
    (try_allocate env st).2.dev_info_.length = st.dev_info_.length ∧
    (∀ j, j < st.dev_info_.length →
      (try_allocate env st).2.dev_info_.getD j default =
        refreshedEntry env st.cur_device j (st.dev_info_.getD j default)) := by
  rcases st with ⟨mo, dbg, info, cur, pe⟩
  simp only at hm
  subst hm
  unfold try_allocate
  simp only []
  split
  · refine ⟨rfl, ?_, ?_⟩
    · exact (loopN_spec env cur info.length _ (Nat.le_refl _)).1
    · exact (loopN_spec env cur info.length _ (Nat.le_refl _)).2.1
  · exact absurd htrig (by assumption)

/-- Witness for C2 (amended) at the concrete state `stInit2` and the
failing environment `envFail`. -/
theorem try_allocate_refresh_witness :
    (try_allocate envFail stInit2).1 = (envFail.allocStatus == cudaSuccess) ∧
    (try_allocate envFail stInit2).2.dev_info_.length = stInit2.dev_info_.length ∧
    (∀ j, j < stInit2.dev_info_.length →
      (try_allocate envFail stInit2).2.dev_info_.getD j default =
        refreshedEntry envFail stInit2.cur_device j (stInit2.dev_info_.getD j default)) :=
  try_allocate_refresh envFail stInit2 rfl (Or.inl (by decide))

end GPUMemory
